import Mathlib

/-!
Verification of the 360° multi-angle image generation pipeline (`360_spin.py`).

The Python program is shallowly embedded:

* machine bytes are `Nat` values below 256 (`List Nat` for byte strings);
* the local filesystem is a `FileStore`, a map from path to stored bytes;
* the external generative-model call is an oracle: per angle index the
  environment supplies a `CallResult` (either an exception or a stream of
  response chunks);
* Python float angles `i * (360 / num_angles)` are embedded as natural
  degree values `i * 360 / num_angles`; for every angle count selectable in
  the UI (4, 6 and 8, all divisors of 360) the float arithmetic is exact and
  the two representations agree, including the formatted strings
  (`str(45.0) = "45.0"`, `f"{45.0:03.0f}" = "045"`);
* Streamlit UI widgets, progress bars and logging side effects are dropped;
  `st.stop` (invoked on a missing API credential) halts the session and is
  embedded as an `Except` error;
* `base64.b64encode` / `base64.b64decode` and the Python `str` helpers
  (`in`, `lower`, `endswith`, format specifiers) are implemented directly
  on the embedded representations.
-/

set_option maxRecDepth 100000
set_option maxHeartbeats 4000000

/-- Lookup table of the standard base64 alphabet, as used by
`base64.b64encode`: index 0–25 ↦ A–Z, 26–51 ↦ a–z, 52–61 ↦ 0–9,
62 ↦ +, 63 ↦ /. -/
def b64Char (n : Nat) : Char :=
  if n < 26 then Char.ofNat (65 + n)
  else if n < 52 then Char.ofNat (97 + (n - 26))
  else if n < 62 then Char.ofNat (48 + (n - 52))
  else if n = 62 then '+'
  else '/'

/-- Inverse of the base64 alphabet, as used by `base64.b64decode`. -/
def b64Index (c : Char) : Nat :=
  if 65 ≤ c.toNat ∧ c.toNat ≤ 90 then c.toNat - 65
  else if 97 ≤ c.toNat ∧ c.toNat ≤ 122 then c.toNat - 97 + 26
  else if 48 ≤ c.toNat ∧ c.toNat ≤ 57 then c.toNat - 48 + 52
  else if c = '+' then 62
  else 63

/-- Standard base64 encoding of a byte string: three bytes become four
alphabet characters; a final group of one or two bytes is padded with
`=`. -/
def b64EncodeList : List Nat → List Char
  | [] => []
  | [b0] =>
      [b64Char (b0 / 4), b64Char (b0 % 4 * 16), '=', '=']
  | [b0, b1] =>
      [b64Char (b0 / 4), b64Char (b0 % 4 * 16 + b1 / 16), b64Char (b1 % 16 * 4), '=']
  | b0 :: b1 :: b2 :: rest =>
      b64Char (b0 / 4) :: b64Char (b0 % 4 * 16 + b1 / 16) ::
        b64Char (b1 % 16 * 4 + b2 / 64) :: b64Char (b2 % 64) :: b64EncodeList rest

/-- Standard base64 decoding: four characters become three bytes, with
`=` padding ending the input as in `base64.b64decode`. -/
def b64DecodeList : List Char → List Nat
  | c0 :: c1 :: c2 :: c3 :: rest =>
      if c2 = '=' then
        [b64Index c0 * 4 + b64Index c1 / 16]
      else if c3 = '=' then
        [b64Index c0 * 4 + b64Index c1 / 16, b64Index c1 % 16 * 16 + b64Index c2 / 4]
      else
        (b64Index c0 * 4 + b64Index c1 / 16) :: (b64Index c1 % 16 * 16 + b64Index c2 / 4) ::
          (b64Index c2 % 4 * 64 + b64Index c3) :: b64DecodeList rest
  | _ => []

/-- `base64.b64encode(bytes).decode()`: byte string to base64 text. -/
def b64encode (bs : List Nat) : String := ⟨b64EncodeList bs⟩

/-- `base64.b64decode(text)`: base64 text back to a byte string. -/
def b64decode (s : String) : List Nat := b64DecodeList s.data

/-- The local filesystem: a map from file path to the stored bytes
(`none` means the file does not exist / cannot be read back). -/
abbrev FileStore := String → Option (List Nat)

/-- `save_binary_file(file_path, data)`: write binary data to a file,
overwriting any previous content at that path. -/
def save_binary_file (store : FileStore) (file_path : String) (data : List Nat) : FileStore :=
  fun p => if p = file_path then some data else store p

/-- Boolean prefix test on character lists. -/
def pyPrefix : List Char → List Char → Bool
  | [], _ => true
  | _ :: _, [] => false
  | a :: as, b :: bs => a == b && pyPrefix as bs

/-- Python `needle in hay` on the character list representation: scan every
suffix of the haystack for the needle as a prefix. -/
def pyContainsAux (needle : List Char) : List Char → Bool
  | [] => needle.isEmpty
  | c :: rest => pyPrefix needle (c :: rest) || pyContainsAux needle rest

/-- Python substring test `needle in hay`. -/
def pyContains (needle hay : String) : Bool :=
  pyContainsAux needle.data hay.data

/-- Python `s.lower()` (per-character lowercasing; the program only feeds it
ASCII prompt text). -/
def pyLower (s : String) : String := ⟨s.data.map Char.toLower⟩

/-- Python `s.endswith(suffix)`. -/
def pyEndsWith (s sfx : String) : Bool := sfx.data.isSuffixOf s.data

/-- Zero-pad a numeral string on the left to the given width, as the `0`
flag of a Python format specifier does. -/
def padZeros (width : Nat) (s : String) : String :=
  ⟨List.replicate (width - s.data.length) '0'⟩ ++ s

/-- Python `f"{i:02d}"`. -/
def pyFormat02d (i : Nat) : String := padZeros 2 (toString i)

/-- Python `f"{angle:03.0f}"` for the integer-valued angles produced by the
selectable counts (4, 6, 8): the degree value zero-padded to width 3. -/
def pyFormat030f (deg : Nat) : String := padZeros 3 (toString deg)

/-- Python `f"{angle}"` for the integer-valued float angles produced by the
selectable counts: `str(45.0) = "45.0"`. -/
def pyFloatStr (deg : Nat) : String := toString deg ++ ".0"

/-- The external API client handle returned by `genai.Client(api_key=...)`. -/
structure Client where
  api_key : String
deriving DecidableEq

/-- `get_genai_client()`: read `GEMINI_API_KEY` from the environment; if it
is unset (or Python-falsy, i.e. the empty string) the session halts via
`st.stop()`, embedded as `none`; otherwise a client is returned. -/
def get_genai_client (env : String → Option String) : Option Client :=
  match env "GEMINI_API_KEY" with
  | none => none
  | some api_key => if api_key = "" then none else some ⟨api_key⟩

/-- Inline binary image data inside a streamed response part
(`part.inline_data`). -/
structure InlineData where
  mime_type : String
  data : List Nat
deriving DecidableEq

/-- One part of a request payload (`types.Part`): an attached image
(`Part.from_bytes`) or prompt text (`Part.from_text`). -/
inductive GPart where
  | image (mime_type : String) (data : List Nat)
  | text (s : String)
deriving DecidableEq

/-- One part of a streamed response chunk; `inline_data` is `None` for
text-only parts. -/
structure RPart where
  inline_data : Option InlineData
deriving DecidableEq

/-- One candidate of a streamed response chunk (`chunk.candidates[k]`),
carrying its content parts. -/
structure Candidate where
  parts : List RPart
deriving DecidableEq

/-- One chunk of the streamed model response. -/
structure Chunk where
  candidates : List Candidate
deriving DecidableEq

/-- Outcome of one external `generate_content_stream` call: either any
exception raised by the external model, or the stream of chunks. -/
inductive CallResult where
  | raises
  | stream (chunks : List Chunk)
deriving DecidableEq

/-- The scan performed by the streaming loop in `generate_angle_image`: the
first part with inline image data, taken from the first candidate of each
chunk in stream order. -/
def firstInline (chunks : List Chunk) : Option InlineData :=
  chunks.findSome? fun chunk =>
    match chunk.candidates.head? with
    | some cand => cand.parts.findSome? fun part => part.inline_data
    | none => none

/-- The `"basic"` prompt strategy template. -/
def basic_strategy (desc angle : String) : String :=
  "Show the same child wearing the exact same clothing from " ++ desc ++
    ". Maintain identical proportions, colors, and fit. " ++ angle ++ "° rotation."

/-- The `"detailed"` prompt strategy template. -/
def detailed_strategy (desc angle : String) : String :=
  "Create " ++ desc ++ " of the same child wearing identical clothing:\n" ++
    "- EXACT same child (face, hair, body proportions, skin tone)\n" ++
    "- IDENTICAL clothing (same colors, patterns, fabric texture, fit, wrinkles)\n" ++
    "- SAME body measurements and clothing size\n" ++
    "- CONSISTENT lighting and shadows\n" ++
    "- IDENTICAL background and studio setup\n" ++
    "- Professional fashion photography style\n" ++
    "- " ++ angle ++ "° perspective rotation only"

/-- The `"comprehensive"` prompt strategy template (the default). -/
def comprehensive_strategy (desc angle : String) : String :=
  "VIRTUAL TRY-ON CONSISTENCY REQUIREMENTS:\n" ++
    "CHILD: Keep exact same child - identical face, hair, skin tone, body measurements, height, build\n" ++
    "CLOTHING: Preserve exact same outfit - identical colors, patterns, fabric textures, fit, sizing, wrinkles, creases\n" ++
    "MEASUREMENTS: Maintain precise body proportions - same chest/waist/hip measurements, clothing should fit identically\n" ++
    "POSE: Natural standing pose appropriate for " ++ desc ++ ", arms at sides or slightly away from body\n" ++
    "LIGHTING: Consistent studio lighting setup - same shadows, highlights, and color temperature\n" ++
    "BACKGROUND: Plain white/light gray studio background, no distractions\n" ++
    "QUALITY: High-resolution fashion photography, sharp details, professional retouching\n" ++
    "ANGLE: Show " ++ desc ++ " perspective (" ++ angle ++ "° rotation) while maintaining all above consistency\n" ++
    "IMPORTANT: This is for virtual try-on system - clothing fit and child\x27s proportions must be absolutely identical across all angles"

/-- The `"measurement_focused"` prompt strategy template. -/
def measurement_focused_strategy (desc angle : String) : String :=
  "MEASUREMENT CONSISTENCY FOR VIRTUAL TRY-ON:\n" ++
    "Reference image shows child with specific measurements - replicate EXACTLY:\n" ++
    "- Same child height and build proportions\n" ++
    "- Identical clothing size and fit (no size variations)\n" ++
    "- Same chest, waist, shoulder measurements\n" ++
    "- Clothing drapes and fits identically\n" ++
    "- Fabric behaves the same way on body\n" ++
    "- Preserve exact garment dimensions and proportions\n" ++
    "Show " ++ desc ++ " (" ++ angle ++ "° rotation) maintaining these critical measurements and fit consistency.\n" ++
    "Studio photography, clean background, professional lighting."

/-- The `"technical"` prompt strategy template. -/
def technical_strategy (desc angle : String) : String :=
  "TECHNICAL SPECIFICATIONS for " ++ desc ++ ":\n" ++
    "SUBJECT CONSISTENCY: Same child model - preserve biometric proportions, facial features, body measurements\n" ++
    "GARMENT CONSISTENCY: Identical clothing item - same fabric properties, color values, pattern alignment, size grade\n" ++
    "FIT ANALYSIS: Maintain exact fit relationship between garment and body - same ease, drape, tension points\n" ++
    "DIMENSIONAL ACCURACY: Preserve 3D garment shape, body silhouette, and spatial relationships\n" ++
    "PHOTOGRAPHIC STANDARDS: Studio lighting setup, " ++ angle ++ "° rotation, fashion photography composition\n" ++
    "BACKGROUND: Neutral backdrop, consistent with virtual try-on presentation standards\n" ++
    "OUTPUT: High-fidelity image suitable for e-commerce virtual try-on system"

/-- `prompt_strategies.get(prompt_strategy, prompt_strategies["comprehensive"])`:
select a strategy template by name, falling back to `"comprehensive"` for
unknown names. -/
def prompt_strategies_get (strategy : String) : String → String → String :=
  if strategy = "basic" then basic_strategy
  else if strategy = "detailed" then detailed_strategy
  else if strategy = "comprehensive" then comprehensive_strategy
  else if strategy = "measurement_focused" then measurement_focused_strategy
  else if strategy = "technical" then technical_strategy
  else comprehensive_strategy

/-- The dual-image composition directive prepended to the back-view prompt
when a back garment reference is attached. -/
def back_view_garment_directive : String :=
  "BACK VIEW GENERATION WITH GARMENT REFERENCE:\n\n" ++
    "PRIMARY IMAGE: Shows child wearing outfit from front/side - use this for:\n" ++
    "- Child\x27s exact face, hair, skin tone, body proportions\n" ++
    "- Overall clothing colors and style consistency\n" ++
    "- Body measurements and fit proportions\n\n" ++
    "GARMENT REFERENCE IMAGE: Shows the specific back design of the garment - use this for:\n" ++
    "- Exact back design details, patterns, prints, or text\n" ++
    "- Back neckline style and shape\n" ++
    "- Any back-specific design elements (buttons, zippers, graphics)\n" ++
    "- Back fabric details and textures\n" ++
    "- Seam placement and construction details\n\n" ++
    "GENERATION REQUIREMENTS:\n" ++
    "- Show the SAME child from primary image wearing the garment\n" ++
    "- Apply the EXACT back design from the garment reference image\n" ++
    "- Maintain identical body measurements and clothing fit from primary image\n" ++
    "- Ensure the garment fits the child\x27s body exactly as shown in primary image\n" ++
    "- Keep consistent lighting and background style\n" ++
    "- Show natural back view pose\n" ++
    "- Professional fashion photography quality\n\n" ++
    "CRITICAL: Combine the child\x27s body and proportions from the primary image with the exact garment back design from the reference image. The garment should fit the child identically to how it fits in the primary image, but show the specific back design from the reference.\n\n"

/-- The modified back-view prompt: the dual-image directive followed by the
original angle prompt. -/
def back_view_garment_prompt (angle_prompt : String) : String :=
  back_view_garment_directive ++ angle_prompt

/-- The request payload built by `generate_angle_image` before the external
call: the primary image (base64-encoded and decoded back, as in the code),
then — only when a back garment reference was passed AND the prompt
mentions the back view — the reference image as a second attachment and the
directive-extended prompt text; otherwise the unmodified prompt text. -/
def build_contents (image_data : List Nat) (angle_prompt : String)
    (back_garment_image : Option (List Nat)) : List GPart :=
  let primary := GPart.image "image/jpeg" (b64decode (b64encode image_data))
  match back_garment_image with
  | some bg =>
      if pyContains "back view" (pyLower angle_prompt) then
        [primary, GPart.image "image/jpeg" (b64decode (b64encode bg)),
          GPart.text (back_view_garment_prompt angle_prompt)]
      else
        [primary, GPart.text angle_prompt]
  | none => [primary, GPart.text angle_prompt]

/-- Result of one `generate_angle_image` call: the payload it sent, the
returned file path (`None` on failure), and the file store after any write. -/
structure GenOutcome where
  contents : List GPart
  result : Option String
  store : FileStore

/-- `generate_angle_image(client, image_data, angle_prompt, suffix,
back_garment_image)`: build the payload, stream the external response, and
write the first inline image to `angle_<suffix><ext>` where `<ext>` is
`mimetypes.guess_extension(mime) or '.png'` (`guess_extension` is the
Python standard-library table, taken as a parameter). Any exception from
the external call is caught and yields `None`. -/
def generate_angle_image (guess_extension : String → Option String) (store : FileStore)
    (image_data : List Nat) (angle_prompt : String) (sfx : String)
    (back_garment_image : Option (List Nat)) (response : CallResult) : GenOutcome :=
  let contents := build_contents image_data angle_prompt back_garment_image
  match response with
  | .raises => ⟨contents, none, store⟩
  | .stream chunks =>
      match firstInline chunks with
      | none => ⟨contents, none, store⟩
      | some d =>
          let ext := (guess_extension d.mime_type).getD ".png"
          let file_path := "angle_" ++ sfx ++ ext
          ⟨contents, some file_path, save_binary_file store file_path d.data⟩

/-- The fixed table of angle descriptions in
`generate_multi_angle_images_from_upload`. -/
def angle_descriptions : List String :=
  ["front view", "front-right diagonal view", "right side view",
    "back-right diagonal view", "back view", "back-left diagonal view",
    "left side view", "front-left diagonal view"]

/-- `angles = [i * (360 / num_angles) for i in range(num_angles)]`, in
integer degrees (exact for every selectable count, see the module
docstring). -/
def angles (num_angles : Nat) : List Nat :=
  (List.range num_angles).map fun i => i * 360 / num_angles

/-- `enumerate(zip(angles, angle_descriptions))`: the jobs of one run, as
(index, degrees, description) triples. `zip` truncates at the shorter
list, so at most 8 jobs exist and for fewer than 8 angles the descriptions
are the first entries of the fixed table. -/
def job_list (num_angles : Nat) : List (Nat × Nat × String) :=
  ((angles num_angles).zip angle_descriptions).enum

/-- `f"{i:02d}_{angle:03.0f}deg"`: the file-name suffix of one angle job. -/
def suffix_for (i deg : Nat) : String :=
  pyFormat02d i ++ "_" ++ pyFormat030f deg ++ "deg"

/-- The consistency reminder appended to the prompt for every angle after
the first. -/
def reference_consistency (i : Nat) : String :=
  "\n\nREFERENCE: Use the original image as the exact template for child and clothing consistency. This is angle " ++
    toString (i + 1) ++ " of a 360° product view sequence."

/-- The full prompt the executor builds for job `i`: the selected strategy
template instantiated with the description and the angle, plus the
reference reminder when `i > 0`. -/
def prompt_for (strategy : String) (i deg : Nat) (description : String) : String :=
  let p := prompt_strategies_get strategy description (pyFloatStr deg)
  if 0 < i then p ++ reference_consistency i else p

/-- `garment_ref = back_garment_bytes if "back view" in description else
None`: the executor passes the back reference only to jobs whose
description mentions the back view. -/
def garment_ref_for (back_garment_bytes : Option (List Nat)) (description : String) :
    Option (List Nat) :=
  if pyContains "back view" description then back_garment_bytes else none

/-- One record of the executor's `generated_images` list: stored path,
angle in degrees, description, and the bytes read back from the stored
file. -/
structure GeneratedImage where
  path : String
  angle : Nat
  description : String
  image : List Nat
deriving DecidableEq

/-- Executor state threaded through the per-angle loop. -/
structure RunState where
  store : FileStore
  generated_images : List GeneratedImage
  messages : List String

/-- The per-angle loop of `generate_multi_angle_images_from_upload`: for
each job build the prompt, call `generate_angle_image` with the external
response for that index, and on success (a returned non-empty path whose
file exists) append the result record; failures only append a log
message. -/
def run_loop (guess_extension : String → Option String) (strategy : String)
    (image_bytes : List Nat) (back_garment_bytes : Option (List Nat))
    (responses : Nat → CallResult) : List (Nat × Nat × String) → RunState → RunState
  | [], st => st
  | (i, deg, description) :: rest, st =>
      let out := generate_angle_image guess_extension st.store image_bytes
        (prompt_for strategy i deg description) (suffix_for i deg)
        (garment_ref_for back_garment_bytes description) (responses i)
      let st2 : RunState :=
        match out.result with
        | some file_path =>
            -- `if file_path and os.path.exists(file_path)`
            match (if file_path = "" then none else out.store file_path) with
            | some bytes =>
                { store := out.store,
                  generated_images := st.generated_images ++
                    [{ path := file_path, angle := deg, description := description,
                        image := bytes }],
                  messages := st.messages ++
                    [if pyContains "back view" description && back_garment_bytes.isSome then
                        "Angle " ++ toString (i + 1) ++ ": Generated successfully with garment reference"
                      else
                        "Angle " ++ toString (i + 1) ++ ": Generated successfully"] }
            | none =>
                { store := out.store, generated_images := st.generated_images,
                  messages := st.messages ++
                    ["Angle " ++ toString (i + 1) ++ ": Failed to generate"] }
        | none =>
            { store := out.store, generated_images := st.generated_images,
              messages := st.messages ++
                ["Angle " ++ toString (i + 1) ++ ": Failed to generate"] }
      run_loop guess_extension strategy image_bytes back_garment_bytes responses rest st2

/-- `generate_multi_angle_images_from_upload(uploaded_image, num_angles,
prompt_strategy, back_garment_image)`: acquire the client (halting the
session when the credential is missing — the `error` case), then run the
per-angle loop over all jobs. The PIL re-encoding of the uploads is
outside the model; `image_bytes` / `back_garment_bytes` are the resulting
JPEG bytes. -/
def generate_multi_angle_images_from_upload (env : String → Option String)
    (guess_extension : String → Option String) (image_bytes : List Nat)
    (num_angles : Nat) (prompt_strategy : String)
    (back_garment_bytes : Option (List Nat)) (responses : Nat → CallResult)
    (store : FileStore) : Except Unit RunState :=
  match get_genai_client env with
  | none => Except.error ()
  | some _ =>
      Except.ok (run_loop guess_extension prompt_strategy image_bytes back_garment_bytes
        responses (job_list num_angles) ⟨store, [], []⟩)

/-- One entry of the `image_data` list embedded in the viewer document: the
data URI, the angle and its label. -/
structure ImageDataEntry where
  data : String
  angle : Nat
  description : String
deriving DecidableEq

/-- The MIME type embedded in a result's data URI, determined in
`create_360_viewer_html` solely from the file name:
`img_info['path'].lower().endswith(('.jpg', '.jpeg'))`. -/
def mime_type_for (path : String) : String :=
  if pyEndsWith (pyLower path) ".jpg" || pyEndsWith (pyLower path) ".jpeg" then "image/jpeg"
  else "image/png"

/-- The viewer-assembly loop body for one result record: skip it when its
stored file no longer exists, otherwise re-read and base64-encode the bytes
into a data URI. -/
def viewer_entry (store : FileStore) (info : GeneratedImage) : Option ImageDataEntry :=
  match store info.path with
  | some bytes =>
      some { data := "data:" ++ mime_type_for info.path ++ ";base64," ++ b64encode bytes,
             angle := info.angle, description := info.description }
  | none => none

/-- `create_360_viewer_html(images)`: `None` when the result list is empty
or when no listed file can be read back; otherwise the viewer document,
abstracted to the ordered `image_data` model it embeds (the surrounding
HTML/JS is a fixed presentational template). -/
def create_360_viewer_html (store : FileStore) (images : List GeneratedImage) :
    Option (List ImageDataEntry) :=
  if images.isEmpty then none
  else if (images.filterMap (viewer_entry store)).isEmpty then none
  else some (images.filterMap (viewer_entry store))

/-- The saved file and its content for one successful call: abstracts the
success path of `generate_angle_image` (see `generate_angle_image_characterization`). -/
def gen_saved (guess_extension : String → Option String) (sfx : String)
    (response : CallResult) : Option (String × List Nat) :=
  match response with
  | .raises => none
  | .stream chunks =>
      (firstInline chunks).map fun d =>
        ("angle_" ++ sfx ++ ((guess_extension d.mime_type).getD ".png"), d.data)

/-- The result record job `i` contributes to the executor's output (`none`
when the job fails); depends only on the job's own response. -/
def job_outcome (guess_extension : String → Option String) (i deg : Nat)
    (description : String) (response : CallResult) : Option GeneratedImage :=
  (gen_saved guess_extension (suffix_for i deg) response).map fun pr =>
    { path := pr.1, angle := deg, description := description, image := pr.2 }

/-- The image attachments of a payload. -/
def imagePartData : GPart → Option (List Nat)
  | .image _ d => some d
  | .text _ => none

/-- The text parts of a payload. -/
def textPartData : GPart → Option String
  | .image _ _ => none
  | .text s => some s

theorem b64Index_b64Char : ∀ n, n < 64 → b64Index (b64Char n) = n := by decide

theorem b64Char_ne_pad : ∀ n, n < 64 → b64Char n ≠ '=' := by decide

theorem b64DecodeList_b64EncodeList :
    ∀ bs : List Nat, (∀ b ∈ bs, b < 256) → b64DecodeList (b64EncodeList bs) = bs := by
  intro bs
  induction bs using b64EncodeList.induct with
  | case1 =>
      intro _
      rfl
  | case2 b0 =>
      intro h
      have hb0 : b0 < 256 := h b0 (by simp)
      show b64DecodeList [b64Char (b0 / 4), b64Char (b0 % 4 * 16), '=', '='] = [b0]
      rw [b64DecodeList, if_pos rfl, b64Index_b64Char _ (by omega), b64Index_b64Char _ (by omega)]
      simp only [List.cons.injEq, and_true]
      omega
  | case3 b0 b1 =>
      intro h
      have hb0 : b0 < 256 := h b0 (by simp)
      have hb1 : b1 < 256 := h b1 (by simp)
      show b64DecodeList [b64Char (b0 / 4), b64Char (b0 % 4 * 16 + b1 / 16),
        b64Char (b1 % 16 * 4), '='] = [b0, b1]
      rw [b64DecodeList, if_neg (b64Char_ne_pad _ (by omega)), if_pos rfl,
        b64Index_b64Char _ (by omega), b64Index_b64Char _ (by omega),
        b64Index_b64Char _ (by omega)]
      simp only [List.cons.injEq, and_true]
      omega
  | case4 b0 b1 b2 rest ih =>
      intro h
      have hb0 : b0 < 256 := h b0 (by simp)
      have hb1 : b1 < 256 := h b1 (by simp)
      have hb2 : b2 < 256 := h b2 (by simp)
      have hrest : ∀ b ∈ rest, b < 256 := fun b hb => h b (by simp [hb])
      show b64DecodeList (b64Char (b0 / 4) :: b64Char (b0 % 4 * 16 + b1 / 16) ::
        b64Char (b1 % 16 * 4 + b2 / 64) :: b64Char (b2 % 64) :: b64EncodeList rest) =
          b0 :: b1 :: b2 :: rest
      rw [b64DecodeList, if_neg (b64Char_ne_pad _ (by omega)), if_neg (b64Char_ne_pad _ (by omega)),
        b64Index_b64Char _ (by omega), b64Index_b64Char _ (by omega),
        b64Index_b64Char _ (by omega), b64Index_b64Char _ (by omega), ih hrest]
      simp only [List.cons.injEq, and_true]
      omega

theorem b64decode_b64encode (bs : List Nat) (h : ∀ b ∈ bs, b < 256) :
    b64decode (b64encode bs) = bs :=
  b64DecodeList_b64EncodeList bs h

theorem pyPrefix_iff : ∀ l m : List Char, pyPrefix l m = true ↔ l <+: m := by
  intro l
  induction l with
  | nil => intro m; simp [pyPrefix]
  | cons a as ih =>
      intro m
      cases m with
      | nil => simp [pyPrefix]
      | cons b bs =>
          rw [pyPrefix, Bool.and_eq_true, beq_iff_eq, ih, List.cons_prefix_cons]

theorem pyContainsAux_iff (n : List Char) :
    ∀ h : List Char, pyContainsAux n h = true ↔ n <:+: h := by
  intro h
  induction h with
  | nil => simp [pyContainsAux, List.isEmpty_iff]
  | cons c rest ih =>
      simp [pyContainsAux, pyPrefix_iff, ih, List.infix_cons_iff]

theorem pyContains_iff {a b : String} : pyContains a b = true ↔ a.data <:+: b.data :=
  pyContainsAux_iff a.data b.data

theorem angle_path_ne_empty (s t : String) : ("angle_" ++ s ++ t) ≠ "" := by
  intro h
  have h2 := congrArg String.data h
  simp [String.data_append] at h2

theorem run_loop_generated_images (gx : String → Option String) (strategy : String)
    (img : List Nat) (back : Option (List Nat)) (responses : Nat → CallResult) :
    ∀ (jobs : List (Nat × Nat × String)) (st : RunState),
      (run_loop gx strategy img back responses jobs st).generated_images =
        st.generated_images ++
          jobs.filterMap (fun j => job_outcome gx j.1 j.2.1 j.2.2 (responses j.1)) := by
  intro jobs
  induction jobs with
  | nil => intro st; simp [run_loop]
  | cons j rest ih =>
      obtain ⟨i, deg, description⟩ := j
      intro st
      rw [run_loop]
      cases hr : responses i with
      | raises =>
          simp only [generate_angle_image]
          rw [ih, List.filterMap_cons]
          simp only [job_outcome, gen_saved, hr]
          rfl
      | stream chunks =>
          cases hf : firstInline chunks with
          | none =>
              simp only [generate_angle_image, hf]
              rw [ih, List.filterMap_cons]
              simp only [job_outcome, gen_saved, hr, hf]
              rfl
          | some d =>
              simp only [generate_angle_image, hf]
              rw [if_neg (angle_path_ne_empty _ _)]
              simp only [save_binary_file, if_pos rfl]
              rw [ih, List.filterMap_cons]
              simp only [job_outcome, gen_saved, hr, hf, Option.map_some]
              simp [List.append_assoc]

theorem length_job_list (n : Nat) : (job_list n).length = min n 8 := by
  simp [job_list, angles, angle_descriptions]

theorem job_list_eq (n : Nat) :
    job_list n = (List.range (min n 8)).map
      (fun i => (i, i * 360 / n, angle_descriptions.getD i "")) := by
  apply List.ext_getElem
  · simp [length_job_list]
  · intro k h1 h2
    have hk : k < min n 8 := by
      simpa [length_job_list] using h1
    have hk8 : k < angle_descriptions.length := by
      simp [angle_descriptions]; omega
    have hkn : k < (angles n).length := by
      simp [angles]; omega
    simp only [job_list, List.getElem_enum, List.getElem_zip, List.getElem_map,
      List.getElem_range, angles, List.getD_eq_getElem _ _ hk8]

theorem run_results_range (gx : String → Option String) (strategy : String)
    (img : List Nat) (back : Option (List Nat)) (responses : Nat → CallResult)
    (store : FileStore) (n : Nat) :
    (run_loop gx strategy img back responses (job_list n) ⟨store, [], []⟩).generated_images =
      (List.range (min n 8)).filterMap
        (fun i => job_outcome gx i (i * 360 / n) (angle_descriptions.getD i "") (responses i)) := by
  rw [run_loop_generated_images, job_list_eq, List.filterMap_map]
  rfl

theorem infix_extend_right {l x : List Char} (y : List Char) (h : l <:+: x) : l <:+: x ++ y :=
  h.trans ⟨[], y, rfl⟩

theorem infix_left_append (x l : List Char) : l <:+: x ++ l :=
  ⟨x, [], by simp⟩

theorem prompt_strategies_get_cases (strategy : String) :
    prompt_strategies_get strategy = basic_strategy ∨
    prompt_strategies_get strategy = detailed_strategy ∨
    prompt_strategies_get strategy = comprehensive_strategy ∨
    prompt_strategies_get strategy = measurement_focused_strategy ∨
    prompt_strategies_get strategy = technical_strategy := by
  unfold prompt_strategies_get
  split_ifs <;> simp

theorem desc_infix_strategies (strategy desc angle : String) :
    desc.data <:+: (prompt_strategies_get strategy desc angle).data := by
  rcases prompt_strategies_get_cases strategy with h | h | h | h | h <;> rw [h]
  · simp only [basic_strategy, String.data_append]
    repeat (first | exact infix_left_append _ _ | apply infix_extend_right)
  · simp only [detailed_strategy, String.data_append]
    repeat (first | exact infix_left_append _ _ | apply infix_extend_right)
  · simp only [comprehensive_strategy, String.data_append]
    repeat (first | exact infix_left_append _ _ | apply infix_extend_right)
  · simp only [measurement_focused_strategy, String.data_append]
    repeat (first | exact infix_left_append _ _ | apply infix_extend_right)
  · simp only [technical_strategy, String.data_append]
    repeat (first | exact infix_left_append _ _ | apply infix_extend_right)

theorem desc_infix_prompt_for (strategy : String) (i deg : Nat) (desc : String) :
    desc.data <:+: (prompt_for strategy i deg desc).data := by
  unfold prompt_for
  split
  · simp only [String.data_append]
    exact infix_extend_right _ (desc_infix_strategies strategy desc (pyFloatStr deg))
  · exact desc_infix_strategies strategy desc (pyFloatStr deg)

theorem pyContains_back_view_lower_prompt (strategy : String) (i deg : Nat) (desc : String)
    (h : pyContains "back view" desc = true) :
    pyContains "back view" (pyLower (prompt_for strategy i deg desc)) = true := by
  rw [pyContains_iff] at h ⊢
  have h2 := List.IsInfix.map Char.toLower (h.trans (desc_infix_prompt_for strategy i deg desc))
  have h3 : ("back view".data.map Char.toLower) = "back view".data := by decide
  rw [h3] at h2
  exact h2

/-- C1 counterexample: for the requested count 4, the job at index 4/2 = 2
(the 180-degree viewpoint) is described "right side view", not "back view",
and no job of that run is described "back view" at all — the fixed 8-entry
description table is merely truncated. -/
theorem claim_c1_counterexample :
    ((job_list 4).getD (4 / 2) (0, 0, "")).2.1 = 180 ∧
    ((job_list 4).getD (4 / 2) (0, 0, "")).2.2 = "right side view" ∧
    "right side view" ≠ "back view" ∧
    (∀ x ∈ job_list 4, x.2.2 ≠ "back view") := by decide

/-- C1 (amended): for n ∈ {4, 6, 8} the executor computes exactly n angle
values i·(360/n) starting at 0; the descriptions are the first n entries of
the fixed 8-entry table, so "back view" is the description of the job at
index 4 whenever n ≥ 5 — the 180° viewpoint for n = 8 (where 4 = n/2) but
the 240° viewpoint for n = 6 — and no job is described "back view" for
n = 4. -/
theorem claim_c1_amended :
    (∀ n ∈ [4, 6, 8], (angles n).length = n ∧
      (∀ i < n, (angles n).getD i 0 = i * (360 / n)) ∧
      (job_list n).length = n ∧
      (∀ x ∈ job_list n, x.2.1 = x.1 * (360 / n))) ∧
    ((job_list 8).getD (8 / 2) (0, 0, "")).2.2 = "back view" ∧
    ((job_list 8).getD (8 / 2) (0, 0, "")).2.1 = 180 ∧
    (∀ x ∈ job_list 8, x.2.2 = "back view" → x.1 = 4) ∧
    ((job_list 6).getD 4 (0, 0, "")).2.2 = "back view" ∧
    ((job_list 6).getD 4 (0, 0, "")).2.1 = 240 ∧
    (∀ x ∈ job_list 6, x.2.2 = "back view" → x.1 = 4) ∧
    (∀ x ∈ job_list 4, x.2.2 ≠ "back view") := by decide

/-- C5: the viewer assembler returns no document when the result list is
empty or when none of the listed files can be read back, and a returned
document always embeds at least one image. -/
theorem claim_c5_viewer_none_when_unreadable (store : FileStore) (images : List GeneratedImage) :
    (images = [] → create_360_viewer_html store images = none) ∧
    ((∀ info ∈ images, store info.path = none) → create_360_viewer_html store images = none) ∧
    (∀ doc, create_360_viewer_html store images = some doc → doc ≠ []) := by
  refine ⟨?_, ?_, ?_⟩
  · intro h
    subst h
    rfl
  · intro h
    unfold create_360_viewer_html
    by_cases he : images.isEmpty
    · rw [if_pos he]
    · rw [if_neg he]
      have hnil : images.filterMap (viewer_entry store) = [] := by
        rw [List.filterMap_eq_nil_iff]
        intro info hinfo
        unfold viewer_entry
        rw [h info hinfo]
      rw [hnil]
      rfl
  · intro doc h
    unfold create_360_viewer_html at h
    split at h
    · simp at h
    · split at h
      · simp at h
      · next hne =>
          obtain rfl : _ = doc := Option.some.inj h
          intro hnil
          rw [hnil] at hne
          simp at hne

theorem claim_c5_witness :
    create_360_viewer_html (fun _ => none)
      [{ path := "p", angle := 0, description := "d", image := [] }] = none :=
  (claim_c5_viewer_none_when_unreadable (fun _ => none)
    [{ path := "p", angle := 0, description := "d", image := [] }]).2.1 (fun _ _ => rfl)

/-- C7: bytes written by `save_binary_file` are read back identically, the
viewer re-encodes exactly those bytes into the data URI, and base64
decoding recovers them byte-for-byte. -/
theorem claim_c7_storage_roundtrip (store : FileStore) (file_path : String) (data : List Nat)
    (info : GeneratedImage) (h : ∀ b ∈ data, b < 256) (hp : info.path = file_path) :
    save_binary_file store file_path data file_path = some data ∧
    viewer_entry (save_binary_file store file_path data) info =
      some { data := "data:" ++ mime_type_for file_path ++ ";base64," ++ b64encode data,
             angle := info.angle, description := info.description } ∧
    b64decode (b64encode data) = data := by
  refine ⟨?_, ?_, b64decode_b64encode data h⟩
  · simp [save_binary_file]
  · unfold viewer_entry
    rw [hp]
    simp [save_binary_file]

theorem claim_c7_witness :
    (∀ b ∈ [0, 127, 255], b < 256) ∧ b64decode (b64encode [0, 127, 255]) = [0, 127, 255] :=
  ⟨by decide, (claim_c7_storage_roundtrip (fun _ => none) "angle_00_000deg.png" [0, 127, 255]
      { path := "angle_00_000deg.png", angle := 0, description := "front view", image := [] }
      (by decide) rfl).2.2⟩

/-- C9: a missing `GEMINI_API_KEY` halts the whole session before any angle
generation is attempted (the run is the same whatever the external model
would have answered), while a present non-empty credential yields a client
and the per-angle loop proceeds. -/
theorem claim_c9_credential_gate (env : String → Option String)
    (gx : String → Option String) (img : List Nat) (n : Nat) (strategy : String)
    (back : Option (List Nat)) (store : FileStore) :
    (env "GEMINI_API_KEY" = none →
      ∀ responses responses2 : Nat → CallResult,
        generate_multi_angle_images_from_upload env gx img n strategy back responses store =
          Except.error () ∧
        generate_multi_angle_images_from_upload env gx img n strategy back responses store =
          generate_multi_angle_images_from_upload env gx img n strategy back responses2 store) ∧
    (∀ key, env "GEMINI_API_KEY" = some key → key ≠ "" →
      get_genai_client env = some ⟨key⟩ ∧
      ∀ responses : Nat → CallResult,
        generate_multi_angle_images_from_upload env gx img n strategy back responses store =
          Except.ok (run_loop gx strategy img back responses (job_list n)
            ⟨store, [], []⟩)) := by
  constructor
  · intro h responses responses2
    unfold generate_multi_angle_images_from_upload get_genai_client
    rw [h]
    exact ⟨rfl, rfl⟩
  · intro key hk hne
    have hc : get_genai_client env = some ⟨key⟩ := by
      simp [get_genai_client, hk, hne]
    refine ⟨hc, fun responses => ?_⟩
    unfold generate_multi_angle_images_from_upload
    rw [hc]

theorem claim_c9_witness :
    generate_multi_angle_images_from_upload (fun _ => none) (fun _ => none) [] 8
      "comprehensive" none (fun _ => CallResult.raises) (fun _ => none) = Except.error () :=
  ((claim_c9_credential_gate (fun _ => none) (fun _ => none) [] 8 "comprehensive" none
    (fun _ => none)).1 rfl (fun _ => CallResult.raises) (fun _ => CallResult.raises)).1

/-- C10: the MIME type of each embedded data URI is computed solely from
the stored file name — `image/jpeg` exactly when the lower-cased path ends
in `.jpg` or `.jpeg`, `image/png` for every other path — independent of the
bytes the file holds. -/
theorem claim_c10_mime_by_extension (store : FileStore) (info : GeneratedImage)
    (bytes : List Nat) (h : store info.path = some bytes) :
    viewer_entry store info =
      some { data := "data:" ++ mime_type_for info.path ++ ";base64," ++ b64encode bytes,
             angle := info.angle, description := info.description } ∧
    ((pyEndsWith (pyLower info.path) ".jpg" || pyEndsWith (pyLower info.path) ".jpeg") = true →
      mime_type_for info.path = "image/jpeg") ∧
    ((pyEndsWith (pyLower info.path) ".jpg" || pyEndsWith (pyLower info.path) ".jpeg") = false →
      mime_type_for info.path = "image/png") := by
  refine ⟨?_, ?_, ?_⟩
  · unfold viewer_entry
    rw [h]
  · intro hb
    unfold mime_type_for
    rw [hb]
    rfl
  · intro hb
    unfold mime_type_for
    rw [hb]
    rfl

theorem claim_c10_witness :
    mime_type_for "angle_00_000deg.JPG" = "image/jpeg" ∧ mime_type_for "angle_00_000deg.png" = "image/png" :=
  ⟨(claim_c10_mime_by_extension
      (fun p => if p = "angle_00_000deg.JPG" then some [1] else none)
      { path := "angle_00_000deg.JPG", angle := 0, description := "front view", image := [] }
      [1] (by decide)).2.1 (by decide),
   (claim_c10_mime_by_extension
      (fun p => if p = "angle_00_000deg.png" then some [1] else none)
      { path := "angle_00_000deg.png", angle := 0, description := "front view", image := [] }
      [1] (by decide)).2.2 (by decide)⟩

theorem job_outcome_angle (gx : String → Option String) (i deg : Nat) (desc : String)
    (resp : CallResult) (r : GeneratedImage)
    (h : job_outcome gx i deg desc resp = some r) : r.angle = deg := by
  unfold job_outcome at h
  rcases Option.map_eq_some'.mp h with ⟨pr, _, hr⟩
  rw [← hr]

/-- C8: a successful angle job writes the first streamed inline image to a
file named by the zero-padded index and the zero-padded integer degree,
`angle_<ii>_<ddd>deg` plus the extension derived from the response MIME
type (defaulting to `.png`), and returns exactly that path with the image
bytes stored under it. -/
theorem claim_c8_success_file_naming (gx : String → Option String) (store : FileStore)
    (img : List Nat) (prompt : String) (i deg : Nat) (desc : String)
    (back : Option (List Nat)) (chunks : List Chunk) (d : InlineData)
    (h : firstInline chunks = some d) :
    job_outcome gx i deg desc (CallResult.stream chunks) =
      some { path := "angle_" ++ (pyFormat02d i ++ "_" ++ pyFormat030f deg ++ "deg") ++
                ((gx d.mime_type).getD ".png"),
             angle := deg, description := desc, image := d.data } ∧
    (generate_angle_image gx store img prompt (suffix_for i deg) back
        (CallResult.stream chunks)).result =
      some ("angle_" ++ suffix_for i deg ++ ((gx d.mime_type).getD ".png")) ∧
    (generate_angle_image gx store img prompt (suffix_for i deg) back
        (CallResult.stream chunks)).store
        ("angle_" ++ suffix_for i deg ++ ((gx d.mime_type).getD ".png")) = some d.data := by
  refine ⟨?_, ?_, ?_⟩ <;>
    simp [job_outcome, gen_saved, generate_angle_image, h, suffix_for, save_binary_file]

theorem claim_c8_witness :
    firstInline [⟨[⟨[⟨some ⟨"image/png", [1, 2]⟩⟩]⟩]⟩] = some ⟨"image/png", [1, 2]⟩ ∧
    job_outcome (fun _ => none) 0 0 "front view"
        (CallResult.stream [⟨[⟨[⟨some ⟨"image/png", [1, 2]⟩⟩]⟩]⟩]) =
      some { path := "angle_" ++ (pyFormat02d 0 ++ "_" ++ pyFormat030f 0 ++ "deg") ++ ".png",
             angle := 0, description := "front view", image := [1, 2] } :=
  ⟨rfl, (claim_c8_success_file_naming (fun _ => none) (fun _ => none) [] "" 0 0 "front view"
      none [⟨[⟨[⟨some ⟨"image/png", [1, 2]⟩⟩]⟩]⟩] ⟨"image/png", [1, 2]⟩ rfl).1⟩

/-- C4: the executor attempts every job exactly once, in index order, and a
job's contribution to the output depends only on its own response — so one
angle's failure cannot abort or retry another's; a job whose call raises or
whose stream holds no inline image contributes nothing (`none`) and is
simply absent from the output. -/
theorem claim_c4_failure_isolation (gx : String → Option String) (strategy : String)
    (img : List Nat) (back : Option (List Nat)) (responses : Nat → CallResult)
    (store : FileStore) (n : Nat) :
    (run_loop gx strategy img back responses (job_list n) ⟨store, [], []⟩).generated_images =
      (job_list n).filterMap (fun j => job_outcome gx j.1 j.2.1 j.2.2 (responses j.1)) ∧
    (∀ (i deg : Nat) (desc : String) (resp : CallResult),
      (resp = CallResult.raises ∨
        (∃ chunks, resp = CallResult.stream chunks ∧ firstInline chunks = none)) →
      job_outcome gx i deg desc resp = none) := by
  constructor
  · rw [run_loop_generated_images]
    simp
  · rintro i deg desc resp h
    rcases h with rfl | ⟨chunks, rfl, hf⟩
    · simp [job_outcome, gen_saved]
    · simp [job_outcome, gen_saved, hf]

theorem claim_c4_witness :
    job_outcome (fun _ => none) 0 0 "front view" CallResult.raises = none :=
  (claim_c4_failure_isolation (fun _ => none) "basic" [] none (fun _ => CallResult.raises)
    (fun _ => none) 4).2 0 0 "front view" CallResult.raises (Or.inl rfl)

/-- C2: for every run the output sequence has length at most the requested
count, is strictly increasing in angle (hence in angle index — the
sequential loop emits results in index order whatever the per-job
outcomes), every element is the unique contribution of one job, and a
failed job's angle is absent from the output (no placeholder, no retry). -/
theorem claim_c2_results_ordered (gx : String → Option String) (strategy : String)
    (img : List Nat) (back : Option (List Nat)) (responses : Nat → CallResult)
    (store : FileStore) (n : Nat) (hn : n ∣ 360) :
    (run_loop gx strategy img back responses (job_list n)
        ⟨store, [], []⟩).generated_images.length ≤ n ∧
    (run_loop gx strategy img back responses (job_list n)
        ⟨store, [], []⟩).generated_images.Pairwise (fun r s => r.angle < s.angle) ∧
    (∀ r ∈ (run_loop gx strategy img back responses (job_list n)
        ⟨store, [], []⟩).generated_images,
      ∃ i, i < min n 8 ∧
        job_outcome gx i (i * 360 / n) (angle_descriptions.getD i "") (responses i) = some r ∧
        r.angle = i * 360 / n) ∧
    (∀ i, i < min n 8 →
      job_outcome gx i (i * 360 / n) (angle_descriptions.getD i "") (responses i) = none →
      ∀ r ∈ (run_loop gx strategy img back responses (job_list n)
          ⟨store, [], []⟩).generated_images,
        r.angle ≠ i * 360 / n) := by
  have hre := run_results_range gx strategy img back responses store n
  have hnpos : 0 < n := by
    rcases Nat.eq_zero_or_pos n with h0 | h0
    · subst h0
      exact absurd (Nat.eq_zero_of_zero_dvd hn) (by norm_num)
    · exact h0
  have hq : 0 < 360 / n := Nat.div_pos (Nat.le_of_dvd (by norm_num) hn) hnpos
  have hmono : ∀ i j : Nat, i < j → i * 360 / n < j * 360 / n := by
    intro i j hij
    rw [Nat.mul_div_assoc i hn, Nat.mul_div_assoc j hn]
    exact Nat.mul_lt_mul_of_lt_of_le hij (le_refl _) hq
  have hinj : ∀ i j : Nat, i * 360 / n = j * 360 / n → i = j := by
    intro i j hij
    rcases Nat.lt_trichotomy i j with h | h | h
    · exact absurd hij (Nat.ne_of_lt (hmono i j h))
    · exact h
    · exact absurd hij.symm (Nat.ne_of_lt (hmono j i h))
  refine ⟨?_, ?_, ?_, ?_⟩
  · rw [hre]
    refine le_trans (List.length_filterMap_le _ _) ?_
    simp [Nat.min_le_left]
  · rw [hre]
    rw [List.pairwise_filterMap]
    refine (List.pairwise_lt_range _).imp ?_
    intro i j hij r hr s hs
    rw [job_outcome_angle gx i _ _ _ r (Option.mem_def.mp hr),
      job_outcome_angle gx j _ _ _ s (Option.mem_def.mp hs)]
    exact hmono i j hij
  · rw [hre]
    intro r hr
    rcases List.mem_filterMap.mp hr with ⟨i, hi, hout⟩
    exact ⟨i, List.mem_range.mp hi, hout, job_outcome_angle gx i _ _ _ r hout⟩
  · rw [hre]
    intro i hi hnone r hr hangle
    rcases List.mem_filterMap.mp hr with ⟨j, _, houtj⟩
    have hj : r.angle = j * 360 / n := job_outcome_angle gx j _ _ _ r houtj
    have : j = i := hinj j i (by rw [← hj, hangle])
    subst this
    rw [hnone] at houtj
    exact Option.noConfusion houtj

theorem claim_c2_witness :
    (8 : Nat) ∣ 360 ∧
    (run_loop (fun _ => none) "basic" [] none (fun _ => CallResult.raises)
        (job_list 8) ⟨fun _ => none, [], []⟩).generated_images.length ≤ 8 :=
  ⟨by decide, (claim_c2_results_ordered (fun _ => none) "basic" [] none
      (fun _ => CallResult.raises) (fun _ => none) 8 (by decide)).1⟩

/-- C3: when a back reference is supplied, a job whose description does not
contain "back view" sends exactly one image attachment (the primary image),
and the job whose description does contain it sends exactly two — the
primary image and the back-reference bytes, in that order. -/
theorem claim_c3_back_reference_attachment (strategy : String) (img bg : List Nat)
    (n i deg : Nat) (desc : String)
    (_hmem : (i, deg, desc) ∈ job_list n)
    (himg : ∀ b ∈ img, b < 256) (hbg : ∀ b ∈ bg, b < 256) :
    (pyContains "back view" desc = false →
      (build_contents img (prompt_for strategy i deg desc)
          (garment_ref_for (some bg) desc)).filterMap imagePartData = [img]) ∧
    (pyContains "back view" desc = true →
      (build_contents img (prompt_for strategy i deg desc)
          (garment_ref_for (some bg) desc)).filterMap imagePartData = [img, bg]) := by
  constructor
  · intro hfalse
    unfold garment_ref_for
    rw [hfalse]
    simp [build_contents, imagePartData, b64decode_b64encode img himg]
  · intro htrue
    unfold garment_ref_for
    rw [htrue]
    simp only [if_true]
    unfold build_contents
    rw [pyContains_back_view_lower_prompt strategy i deg desc htrue]
    simp [imagePartData, b64decode_b64encode img himg, b64decode_b64encode bg hbg]

theorem claim_c3_witness :
    ((4 : Nat), (180 : Nat), "back view") ∈ job_list 8 ∧
    pyContains "back view" "back view" = true ∧
    (build_contents [7] (prompt_for "comprehensive" 4 180 "back view")
        (garment_ref_for (some [9]) "back view")).filterMap imagePartData = [[7], [9]] :=
  ⟨by decide, by decide,
    (claim_c3_back_reference_attachment "comprehensive" [7] [9] 8 4 180 "back view"
      (by decide) (by decide) (by decide)).2 (by decide)⟩

/-- C6: in a run without a back reference (over the selectable counts), the
back-view job's payload is exactly the primary image attachment and the
unmodified strategy prompt — one image attachment, and the prompt does not
contain the dual-image composition directive (marked by its
"GARMENT REFERENCE" wording). -/
theorem claim_c6_back_view_without_reference (strategy : String) (img : List Nat)
    (n i deg : Nat) (hn : n = 4 ∨ n = 6 ∨ n = 8)
    (hmem : (i, deg, "back view") ∈ job_list n) (himg : ∀ b ∈ img, b < 256) :
    build_contents img (prompt_for strategy i deg "back view")
        (garment_ref_for none "back view") =
      [GPart.image "image/jpeg" img,
        GPart.text (prompt_for strategy i deg "back view")] ∧
    (build_contents img (prompt_for strategy i deg "back view")
        (garment_ref_for none "back view")).filterMap imagePartData = [img] ∧
    pyContains "GARMENT REFERENCE" (prompt_for strategy i deg "back view") = false := by
  have hg : garment_ref_for none "back view" = none := by
    unfold garment_ref_for
    split <;> rfl
  have hparts : build_contents img (prompt_for strategy i deg "back view")
      (garment_ref_for none "back view") =
      [GPart.image "image/jpeg" img,
        GPart.text (prompt_for strategy i deg "back view")] := by
    rw [hg]
    simp [build_contents, b64decode_b64encode img himg]
  refine ⟨hparts, ?_, ?_⟩
  · rw [hparts]
    simp [imagePartData]
  · have h4 : ∀ x ∈ job_list 4, x.2.2 ≠ "back view" := by decide
    have h6 : ∀ x ∈ job_list 6, x.2.2 = "back view" → x = (4, 240, "back view") := by decide
    have h8 : ∀ x ∈ job_list 8, x.2.2 = "back view" → x = (4, 180, "back view") := by decide
    rcases hn with rfl | rfl | rfl
    · exact absurd rfl (h4 _ hmem)
    · have hx := h6 _ hmem rfl
      have hi : i = 4 := congrArg Prod.fst hx
      have hdeg : deg = 240 := congrArg (fun p => p.2.1) hx
      subst hi
      subst hdeg
      unfold prompt_for
      rcases prompt_strategies_get_cases strategy with h | h | h | h | h <;> rw [h] <;> decide
    · have hx := h8 _ hmem rfl
      have hi : i = 4 := congrArg Prod.fst hx
      have hdeg : deg = 180 := congrArg (fun p => p.2.1) hx
      subst hi
      subst hdeg
      unfold prompt_for
      rcases prompt_strategies_get_cases strategy with h | h | h | h | h <;> rw [h] <;> decide

theorem claim_c6_witness :
    ((4 : Nat), (180 : Nat), "back view") ∈ job_list 8 ∧
    pyContains "GARMENT REFERENCE" (prompt_for "comprehensive" 4 180 "back view") = false :=
  ⟨by decide,
    (claim_c6_back_view_without_reference "comprehensive" [5] 8 4 180
      (Or.inr (Or.inr rfl)) (by decide) (by decide)).2.2⟩
